import Mathlib

/-! # ST LIS3LV02Dx accelerometer driver: `drivers/hwmon/lis3lv02d.c`

A shallow embedding of the driver's register decoding, axis mapping, joystick
calibration, device initialisation and of the `/dev/freefall` event pipeline
(open, release, read, poll and the free-fall interrupt handler), followed by
theorems about them.

Conventions of the embedding.

* C integers are `Int`/`Nat` values; every narrowing conversion of the source
  is an explicit wrap (`s8`, `s16`, `s32`, `u8`, `u32`).
* The bus callback `lis3->read(lis3, reg, &v)` is a function from the register
  number to a `BusRead`: the return code together with the byte that the
  destination variable `v` holds once the call is over (the byte stored by the
  callback, or whatever the variable held when the callback stores nothing).
  Register contents do not change during one sample.
* The header `lis3lv02d.h` is not part of the sources at hand; the register
  numbers `OUTX`, `OUTY`, `OUTZ` it defines are parameters, and so are the
  constants `lis3lv02d_init_device` uses, gathered in `Header`.
* Calls of the bus callbacks `write` and `init` are recorded in `bus_writes`
  and `bus_inits`; what the kernel services called during initialisation
  return is the input `InitEnv`.
* `lis3_dev` is a global in C; here it is the field `lis3_dev` of `System`,
  which also carries the kernel-side state the driver acts on (the tasks that
  may sleep on the wait queue, the interrupt line, the queued SIGIO
  notifications).
* `lis3lv02d_misc_read` loops around `schedule()`.  It is embedded as a
  coroutine: `lis3lv02d_misc_read` runs the call from its entry up to its
  return or to its first `schedule()`, and `lis3lv02d_misc_read_resume`
  continues a sleeping call.  One pass of the loop is taken as atomic with
  respect to the interrupt handler; the driver sets the task state before it
  exchanges the counter, so an interrupt that arrives inside a pass has the
  effect of one that arrives just after `schedule()` put the task to sleep.
-/

namespace Lis3

/-! ## Machine integers and constants -/

/-- Conversion to C `s8`: the value of the low 8 bits read as two's complement. -/
def s8 (v : Int) : Int := (v + 128) % 256 - 128

/-- Conversion to C `s16`. -/
def s16 (v : Int) : Int := (v + 32768) % 65536 - 32768

/-- Conversion to C `int` (32 bits, wrapping as the kernel is built). -/
def s32 (v : Int) : Int := (v + 2147483648) % 4294967296 - 2147483648

/-- Conversion to C `u8`. -/
def u8 (v : Nat) : Nat := v % 256

/-- Conversion to C `u32`. -/
def u32 (v : Nat) : Nat := v % 4294967296

def EAGAIN : Int := 11
def EFAULT : Int := 14
def EBUSY : Int := 16
def EINVAL : Int := 22
def ERESTARTSYS : Int := 512

/-- Flag `O_NONBLOCK` of `file->f_flags` (octal 04000, the asm-generic value). -/
def O_NONBLOCK : Nat := 2048

/-- Value of `IRQ_HANDLED`. -/
def IRQ_HANDLED : Nat := 1

/-- Event bits `POLLIN` and `POLLRDNORM` of the kernel (the asm-generic values). -/
def POLLIN : Nat := 1
def POLLRDNORM : Nat := 64

/-- Event codes `ABS_X`, `ABS_Y`, `ABS_Z` of the input layer. -/
def ABS_X : Nat := 0
def ABS_Y : Nat := 1
def ABS_Z : Nat := 2

/-! ## Data model -/

/-- Outcome of one call of the bus callback `lis3->read(lis3, reg, &v)`. -/
structure BusRead where
  /-- The return code; negative on failure. -/
  ret : Int
  /-- The content of the destination variable after the call. -/
  val : Nat

/-- The two decoders `read_data` may point to. -/
inductive ReadFn where
  | read_8
  | read_16
  deriving DecidableEq, Repr

/-- The C `struct axis_conversion`: three `s8` entries. -/
structure axis_conversion where
  x : Int := 1
  y : Int := 2
  z : Int := 3
  deriving DecidableEq, Repr

/-- The C `struct lis3lv02d_platform_data`, as `lis3lv02d_init_device` reads it: eight
`unsigned char` fields. -/
structure lis3lv02d_platform_data where
  click_flags : Nat := 0
  click_thresh_x : Nat := 0
  click_thresh_y : Nat := 0
  click_thresh_z : Nat := 0
  click_time_limit : Nat := 0
  click_latency : Nat := 0
  click_window : Nat := 0
  irq_cfg : Nat := 0
  deriving DecidableEq, Repr

/-- What the driver sets in the polled input device `lis3_dev.idev`. -/
structure input_polled_dev where
  poll_interval : Nat := 0
  /-- The calls of `input_set_abs_params`: axis, minimum, maximum, fuzz, flat. -/
  abs_params : List (Nat × Int × Int × Int × Int) := []
  deriving DecidableEq, Repr

/-- The pointer `lis3->pdev`: null, an `ERR_PTR` code, or a platform device. -/
inductive pdev_ptr where
  | null
  | err (code : Int)
  | dev
  deriving DecidableEq, Repr

/-- The fields of `struct lis3lv02d` the embedded functions use. -/
structure lis3lv02d where
  /-- The bus callback `read`. -/
  read : Int → BusRead := fun _ => ⟨0, 0⟩
  /-- Identification byte `whoami`. -/
  whoami : Int := 0
  /-- The decoder `read_data`; `none` is the null pointer. -/
  read_data : Option ReadFn := none
  mdps_max_val : Int := 0
  xcalib : Int := 0
  ycalib : Int := 0
  zcalib : Int := 0
  /-- The `atomic_t count`, held as its 32-bit pattern read as unsigned. -/
  count : Nat := 0
  ac : axis_conversion := {}
  irq : Nat := 0
  /-- The `async_queue`: the files registered for SIGIO. -/
  async_queue : List Nat := []
  /-- The wait queue `misc_wait`: the tasks whose wait entry is queued, head first. -/
  misc_wait : List Nat := []
  /-- Bit 0 of `misc_opened`. -/
  misc_opened : Bool := false
  /-- The optional platform data `pdata`; `none` is the null pointer. -/
  pdata : Option lis3lv02d_platform_data := none
  /-- The polled input device `idev`; `none` is the null pointer. -/
  idev : Option input_polled_dev := none
  /-- The platform device `pdev`. -/
  pdev : pdev_ptr := pdev_ptr.null

/-- The C `current->state`, for the two values the driver sets. -/
inductive TaskState where
  | TASK_RUNNING
  | TASK_INTERRUPTIBLE
  deriving DecidableEq, Repr

/-- The fields of `struct task_struct` the driver looks at. -/
structure task_struct where
  state : TaskState := TaskState.TASK_RUNNING
  /-- What `signal_pending(task)` returns. -/
  sigpending : Bool := false
  deriving DecidableEq, Repr

/-- The fields of `struct file` the driver looks at; `id` identifies the file. -/
structure file where
  id : Nat := 0
  f_flags : Nat := 0
  deriving DecidableEq, Repr

/-- The global `lis3_dev` and the kernel state around it. -/
structure System where
  lis3_dev : lis3lv02d := {}
  /-- The tasks, by pid. -/
  tasks : Nat → task_struct := fun _ => {}
  /-- Whether `lis302dl_interrupt` is installed on the line `lis3_dev.irq`. -/
  irq_installed : Bool := false
  /-- The files to which `kill_fasync` has queued a SIGIO, latest first. -/
  fasync_sent : List Nat := []
  /-- The calls `lis3->write(lis3, reg, val)` made so far, oldest first. -/
  bus_writes : List (Int × Nat) := []
  /-- The number of calls `lis3->init(lis3)` made so far. -/
  bus_inits : Nat := 0
  /-- Whether the sysfs attribute group of the driver exists. -/
  sysfs_group : Bool := false
  /-- Whether the polled input device is registered with the input layer. -/
  input_registered : Bool := false
  /-- Whether `lis3lv02d_misc_device` (`/dev/freefall`) is registered. -/
  misc_registered : Bool := false

/-- How a call of `lis3lv02d_misc_read` stands. -/
inductive ReadOutcome where
  /-- The call returned `retval`; `copied` is the byte stored in the user buffer, if any. -/
  | ret (retval : Int) (copied : Option Nat)
  /-- The call sleeps in `schedule()`. -/
  | sleeping
  deriving DecidableEq, Repr

/-! ## Sample decoding and axis mapping -/

/-- Source lines 59-66. -/
def lis3lv02d_read_8 (lis3 : lis3lv02d) (reg : Int) : Int :=
  let r := lis3.read reg
  let lo : Int := s8 (u8 r.val)
  if r.ret < 0 then 0
  else s16 lo

/-- Source lines 68-76; the return codes of the two reads are not looked at. -/
def lis3lv02d_read_16 (lis3 : lis3lv02d) (reg : Int) : Int :=
  let lo : Nat := u8 (lis3.read (reg - 1)).val
  let hi : Nat := u8 (lis3.read reg).val
  s16 (((hi <<< 8) ||| lo : Nat) : Int)

/-- The call `lis3->read_data(lis3, reg)` through the function pointer. -/
def ReadFn.call : ReadFn → lis3lv02d → Int → Int
  | ReadFn.read_8, lis3, reg => lis3lv02d_read_8 lis3 reg
  | ReadFn.read_16, lis3, reg => lis3lv02d_read_16 lis3 reg

/-- The array access `hw_values[i]`; `none` when `i` is outside the array. -/
def index (hw_values : List Int) (i : Int) : Option Int :=
  if 0 ≤ i then hw_values.get? i.toNat else none

/-- Source lines 85-91; `none` when the access is out of bounds. -/
def lis3lv02d_get_axis (axis : Int) (hw_values : List Int) : Option Int :=
  if axis > 0 then
    index hw_values (axis - 1)
  else
    (index hw_values (-axis - 1)).map (fun v => s32 (-v))

/-- Source lines 102-113; `none` when `read_data` is null or an access is out of bounds. -/
def lis3lv02d_get_xyz (lis3 : lis3lv02d) (OUTX OUTY OUTZ : Int) : Option (Int × Int × Int) :=
  match lis3.read_data with
  | none => none
  | some f =>
    let position : List Int := [f.call lis3 OUTX, f.call lis3 OUTY, f.call lis3 OUTZ]
    match lis3lv02d_get_axis lis3.ac.x position,
          lis3lv02d_get_axis lis3.ac.y position,
          lis3lv02d_get_axis lis3.ac.z position with
    | some x, some y, some z => some (x, y, z)
    | _, _, _ => none

/-- Source lines 271-279; the result is the list of `input_report_abs` calls, in order. -/
def lis3lv02d_joystick_poll (lis3 : lis3lv02d) (OUTX OUTY OUTZ : Int) :
    Option (List (Nat × Int)) :=
  match lis3lv02d_get_xyz lis3 OUTX OUTY OUTZ with
  | none => none
  | some (x, y, z) =>
    some [(ABS_X, s32 (x - lis3.xcalib)),
          (ABS_Y, s32 (y - lis3.ycalib)),
          (ABS_Z, s32 (z - lis3.zcalib))]

/-- Source lines 282-286. -/
def lis3lv02d_calibrate_joystick (lis3 : lis3lv02d) (OUTX OUTY OUTZ : Int) :
    Option lis3lv02d :=
  match lis3lv02d_get_xyz lis3 OUTX OUTY OUTZ with
  | none => none
  | some (x, y, z) => some { lis3 with xcalib := x, ycalib := y, zcalib := z }

/-! ## Kernel primitives used by the event pipeline -/

/-- The kernel `atomic_inc(&lis3_dev.count)`. -/
def atomic_inc (s : System) : System :=
  { s with lis3_dev := { s.lis3_dev with count := u32 (s.lis3_dev.count + 1) } }

/-- The kernel `atomic_set(&lis3_dev.count, v)`. -/
def atomic_set (s : System) (v : Nat) : System :=
  { s with lis3_dev := { s.lis3_dev with count := u32 v } }

/-- The kernel `atomic_xchg(&lis3_dev.count, v)`: the new state and the old value. -/
def atomic_xchg (s : System) (v : Nat) : System × Nat :=
  ({ s with lis3_dev := { s.lis3_dev with count := u32 v } }, s.lis3_dev.count)

/-- Write of bit 0 of `lis3_dev.misc_opened`. -/
def set_misc_opened (s : System) (b : Bool) : System :=
  { s with lis3_dev := { s.lis3_dev with misc_opened := b } }

/-- The kernel `set_current_state(st)` for the task `cur`. -/
def set_current_state (s : System) (cur : Nat) (st : TaskState) : System :=
  let t := s.tasks cur
  { s with tasks := Function.update s.tasks cur { t with state := st } }

/-- The kernel `add_wait_queue(&lis3_dev.misc_wait, &wait)`, `wait` being the entry of `cur`. -/
def add_wait_queue (s : System) (cur : Nat) : System :=
  { s with lis3_dev := { s.lis3_dev with misc_wait := cur :: s.lis3_dev.misc_wait } }

/-- The kernel `remove_wait_queue(&lis3_dev.misc_wait, &wait)`. -/
def remove_wait_queue (s : System) (cur : Nat) : System :=
  { s with lis3_dev := { s.lis3_dev with misc_wait := s.lis3_dev.misc_wait.erase cur } }

/-- Wake-up of one task sleeping in `TASK_INTERRUPTIBLE`. -/
def try_to_wake_up (t : task_struct) : task_struct :=
  if t.state = TaskState.TASK_INTERRUPTIBLE then { t with state := TaskState.TASK_RUNNING }
  else t

/-- The kernel `wake_up_interruptible(&lis3_dev.misc_wait)`: every queued task is woken;
the entries stay queued. -/
def wake_up_interruptible (s : System) : System :=
  { s with tasks := fun p =>
      if p ∈ s.lis3_dev.misc_wait then try_to_wake_up (s.tasks p) else s.tasks p }

/-- The kernel `kill_fasync(&lis3_dev.async_queue, SIGIO, POLL_IN)`: a SIGIO is queued
for every registered file. -/
def kill_fasync (s : System) : System :=
  { s with fasync_sent := s.lis3_dev.async_queue ++ s.fasync_sent }

/-- The kernel `fasync_helper(fd, filp, on, &lis3_dev.async_queue)`, with `enable` for `on`. -/
def fasync_helper (s : System) (filp : file) (enable : Bool) : System :=
  let q := s.lis3_dev.async_queue
  let q := if enable then (if filp.id ∈ q then q else filp.id :: q)
           else List.filter (fun f => f != filp.id) q
  { s with lis3_dev := { s.lis3_dev with async_queue := q } }

/-- Delivery of a signal to the task `pid` by the rest of the kernel: the signal is
pending and a task sleeping in `TASK_INTERRUPTIBLE` is woken. -/
def signal_wake_up (s : System) (pid : Nat) : System :=
  let t := s.tasks pid
  { s with tasks := Function.update s.tasks pid (try_to_wake_up { t with sigpending := true }) }

/-! ## The event pipeline -/

/-- Source lines 140-152. -/
def lis302dl_interrupt (s : System) : System × Nat :=
  let s := atomic_inc s
  let s := wake_up_interruptible s
  let s := kill_fasync s
  (s, IRQ_HANDLED)

/-- The state after `n` runs of `lis302dl_interrupt`. -/
def triggers : Nat → System → System
  | 0, s => s
  | n + 1, s => triggers n (lis302dl_interrupt s).1

/-- Source lines 154-183; `request_irq_ret` is what `request_irq` returns. -/
def lis3lv02d_misc_open (s : System) (request_irq_ret : Int) : System × Int :=
  if s.lis3_dev.misc_opened then
    (s, -EBUSY)
  else
    let s := set_misc_opened s true
    let s := atomic_set s 0
    let ret := request_irq_ret
    if ret ≠ 0 then
      let s := set_misc_opened s false
      (s, -EBUSY)
    else
      ({ s with irq_installed := true }, 0)

/-- Source lines 185-191. -/
def lis3lv02d_misc_release (s : System) (filp : file) : System × Int :=
  let s := fasync_helper s filp false
  let s := { s with irq_installed := false }
  let s := set_misc_opened s false
  (s, 0)

/-- The label `out` of `lis3lv02d_misc_read` (source lines 235-239). -/
def misc_read_out (s : System) (cur : Nat) (retval : Int) (copied : Option Nat) :
    System × ReadOutcome :=
  let s := set_current_state s cur TaskState.TASK_RUNNING
  let s := remove_wait_queue s cur
  (s, ReadOutcome.ret retval copied)

/-- One pass of the loop of `lis3lv02d_misc_read` (source lines 205-222) and, when the
loop is left, the rest of the function (lines 224-239). -/
def misc_read_pass (s : System) (cur : Nat) (filp : file) (buf_writable : Bool) :
    System × ReadOutcome :=
  let s := set_current_state s cur TaskState.TASK_INTERRUPTIBLE
  let (s, data) := atomic_xchg s 0
  if data ≠ 0 then
    let byte_data : Nat := if data < 255 then u8 data else 255
    let s := set_current_state s cur TaskState.TASK_RUNNING
    if buf_writable then
      misc_read_out s cur 1 (some byte_data)
    else
      misc_read_out s cur (-EFAULT) none
  else if filp.f_flags &&& O_NONBLOCK ≠ 0 then
    misc_read_out s cur (-EAGAIN) none
  else if (s.tasks cur).sigpending then
    misc_read_out s cur (-ERESTARTSYS) none
  else
    (s, ReadOutcome.sleeping)

/-- Source lines 193-240, from the entry to the return or to the first `schedule()`.
The task `cur` is `current`; `buf_writable` tells whether `copy_to_user` to `buf`
succeeds. -/
def lis3lv02d_misc_read (s : System) (cur : Nat) (filp : file) (buf_writable : Bool)
    (count : Nat) : System × ReadOutcome :=
  if count < 1 then
    (s, ReadOutcome.ret (-EINVAL) none)
  else
    let s := add_wait_queue s cur
    misc_read_pass s cur filp buf_writable

/-- A call of `lis3lv02d_misc_read` that sleeps in `schedule()`: it stays asleep until
the task is runnable again, then takes the next pass of the loop. -/
def lis3lv02d_misc_read_resume (s : System) (cur : Nat) (filp : file)
    (buf_writable : Bool) : System × ReadOutcome :=
  if (s.tasks cur).state = TaskState.TASK_RUNNING then
    misc_read_pass s cur filp buf_writable
  else
    (s, ReadOutcome.sleeping)

/-- The kernel `poll_wait(filp, &lis3_dev.misc_wait, wait)`.  The poll table `wait` is
given as the pid of the polling task, `none` being a null table; an entry of that task
is queued on `misc_wait`. -/
def poll_wait (s : System) (_filp : file) (wait : Option Nat) : System :=
  match wait with
  | some p => add_wait_queue s p
  | none => s

/-- Source lines 242-248. -/
def lis3lv02d_misc_poll (s : System) (filp : file) (wait : Option Nat) : System × Nat :=
  let s := poll_wait s filp wait
  if s.lis3_dev.count ≠ 0 then
    (s, POLLIN ||| POLLRDNORM)
  else
    (s, 0)

/-! ## Device lifecycle -/

/-- The scenario of a read that is followed by one interrupt and then taken up again:
the state and the outcome after `lis3lv02d_misc_read`, one run of `lis302dl_interrupt`
and `lis3lv02d_misc_read_resume`. -/
def read_trigger_resume (s : System) (cur : Nat) (filp : file) (buf_writable : Bool)
    (count : Nat) : System × ReadOutcome :=
  let r := lis3lv02d_misc_read s cur filp buf_writable count
  lis3lv02d_misc_read_resume (lis302dl_interrupt r.1).1 cur filp buf_writable

/-- The scenario of a read that is followed by a signal to the reader and then taken up
again: the state and the outcome after `lis3lv02d_misc_read`, `signal_wake_up` of the
task `cur` and `lis3lv02d_misc_read_resume`. -/
def read_signal_resume (s : System) (cur : Nat) (filp : file) (buf_writable : Bool)
    (count : Nat) : System × ReadOutcome :=
  let r := lis3lv02d_misc_read s cur filp buf_writable count
  lis3lv02d_misc_read_resume (signal_wake_up r.1 cur) cur filp buf_writable

/-! ## Concrete inputs of the closed theorems -/

/-- The state right after a first successful open of `/dev/freefall`. -/
def attached0 : System := (lis3lv02d_misc_open {} 0).1

/-- A file opened without `O_NONBLOCK`. -/
def blocking_file : file := { id := 1, f_flags := 0 }

/-- A file opened with `O_NONBLOCK`. -/
def nonblocking_file : file := { id := 1, f_flags := O_NONBLOCK }

/-- A device whose bus reads of the registers `0x28` and `0x29` both fail with `-5`,
leaving `0x34` and `0x12` in the destination bytes. -/
def failing_bus : lis3lv02d :=
  { read := fun reg => if reg = 0x28 then ⟨-5, 0x34⟩ else ⟨-5, 0x12⟩,
    read_data := some ReadFn.read_16 }

/-- A two-byte device whose odd registers hold `0x01` and whose even registers hold
`0x00`: every axis register pair reads low `0x00`, high `0x01`. -/
def double_byte_dev : lis3lv02d :=
  { read := fun reg => if reg % 2 = 0 then ⟨0, 0x00⟩ else ⟨0, 0x01⟩,
    read_data := some ReadFn.read_16,
    xcalib := 7, ycalib := -9, zcalib := 11 }

/-- A one-byte device whose registers all hold `0xFB` (the `s8` value `-5`), with the
X axis inverted. -/
def single_byte_dev : lis3lv02d :=
  { read := fun _ => ⟨0, 0xFB⟩,
    read_data := some ReadFn.read_8,
    ac := { x := -1, y := 2, z := 3 } }

/-- The same system with the identification register holding `0x3B`. -/
def single_byte_sensor : System :=
  { lis3_dev :=
      { read := fun reg => if reg = 0x0F then ⟨0, 0x3B⟩ else ⟨0, 0⟩,
        irq := 9,
        pdata := some { click_flags := 1, irq_cfg := 4 } } }

/-- An attached state whose counter holds `2^31 + 5`, a value that is negative when the
`atomic_t` is read as a signed `int`. -/
def wrapped_counter : System :=
  { lis3_dev := { count := 2147483653, misc_opened := true }, irq_installed := true }

/-- The entries an axis conversion may hold: `±1`, `±2`, `±3`. -/
def valid_axis (a : Int) : Prop :=
  a = 1 ∨ a = 2 ∨ a = 3 ∨ a = -1 ∨ a = -2 ∨ a = -3

instance (a : Int) : Decidable (valid_axis a) := by
  unfold valid_axis; infer_instance

/-! ## Lemmas on the interrupt handler and on the read loop -/

theorem interrupt_count (s : System) :
    (lis302dl_interrupt s).1.lis3_dev.count = (s.lis3_dev.count + 1) % 4294967296 := rfl

theorem interrupt_misc_wait (s : System) :
    (lis302dl_interrupt s).1.lis3_dev.misc_wait = s.lis3_dev.misc_wait := rfl

theorem interrupt_misc_opened (s : System) :
    (lis302dl_interrupt s).1.lis3_dev.misc_opened = s.lis3_dev.misc_opened := rfl

theorem triggers_misc_wait (n : Nat) (s : System) :
    (triggers n s).lis3_dev.misc_wait = s.lis3_dev.misc_wait := by
  induction n generalizing s with
  | zero => rfl
  | succ k ih => rw [triggers, ih, interrupt_misc_wait]

theorem triggers_misc_opened (n : Nat) (s : System) :
    (triggers n s).lis3_dev.misc_opened = s.lis3_dev.misc_opened := by
  induction n generalizing s with
  | zero => rfl
  | succ k ih => rw [triggers, ih, interrupt_misc_opened]

/-- The counter after `n` interrupts is the sum modulo `2^32`. -/
theorem triggers_count (n : Nat) (s : System) (h : s.lis3_dev.count < 4294967296) :
    (triggers n s).lis3_dev.count = (s.lis3_dev.count + n) % 4294967296 := by
  induction n generalizing s with
  | zero => simp [triggers]; omega
  | succ k ih =>
    rw [triggers, ih, interrupt_count]
    · omega
    · rw [interrupt_count]; omega

theorem add_wait_queue_count (s : System) (cur : Nat) :
    (add_wait_queue s cur).lis3_dev.count = s.lis3_dev.count := rfl

theorem add_wait_queue_misc_wait (s : System) (cur : Nat) :
    (add_wait_queue s cur).lis3_dev.misc_wait = cur :: s.lis3_dev.misc_wait := rfl

theorem add_wait_queue_misc_opened (s : System) (cur : Nat) :
    (add_wait_queue s cur).lis3_dev.misc_opened = s.lis3_dev.misc_opened := rfl

theorem add_wait_queue_tasks (s : System) (cur : Nat) :
    (add_wait_queue s cur).tasks = s.tasks := rfl

/-- With a requested count of at least 1 the call queues its wait entry and enters the loop. -/
theorem misc_read_enter (s : System) (cur : Nat) (filp : file) (b : Bool) (count : Nat)
    (hcount : 1 ≤ count) :
    lis3lv02d_misc_read s cur filp b count
      = misc_read_pass (add_wait_queue s cur) cur filp b := by
  have hlt : ¬ count < 1 := by omega
  simp [lis3lv02d_misc_read, hlt]

/-- A pass of the read loop that finds a nonzero counter and a writable buffer. -/
theorem misc_read_pass_data (s : System) (cur : Nat) (filp : file)
    (h : s.lis3_dev.count ≠ 0) :
    (misc_read_pass s cur filp true).2
        = ReadOutcome.ret 1
            (some (if s.lis3_dev.count < 255 then s.lis3_dev.count % 256 else 255))
      ∧ (misc_read_pass s cur filp true).1.lis3_dev.count = 0
      ∧ (misc_read_pass s cur filp true).1.lis3_dev.misc_wait = s.lis3_dev.misc_wait.erase cur
      ∧ (misc_read_pass s cur filp true).1.lis3_dev.misc_opened = s.lis3_dev.misc_opened := by
  simp [misc_read_pass, atomic_xchg, set_current_state, misc_read_out, remove_wait_queue, h,
    u8, u32]

/-- A pass of the read loop that finds a nonzero counter and a buffer it cannot write. -/
theorem misc_read_pass_fault (s : System) (cur : Nat) (filp : file)
    (h : s.lis3_dev.count ≠ 0) :
    (misc_read_pass s cur filp false).2 = ReadOutcome.ret (-EFAULT) none
      ∧ (misc_read_pass s cur filp false).1.lis3_dev.count = 0
      ∧ (misc_read_pass s cur filp false).1.lis3_dev.misc_wait
          = s.lis3_dev.misc_wait.erase cur := by
  simp [misc_read_pass, atomic_xchg, set_current_state, misc_read_out, remove_wait_queue, h,
    u32]

/-- A pass of the read loop that finds the counter at 0 on a non-blocking file. -/
theorem misc_read_pass_empty_nonblocking (s : System) (cur : Nat) (filp : file) (b : Bool)
    (h0 : s.lis3_dev.count = 0) (hnb : filp.f_flags &&& O_NONBLOCK ≠ 0) :
    (misc_read_pass s cur filp b).2 = ReadOutcome.ret (-EAGAIN) none
      ∧ (misc_read_pass s cur filp b).1.lis3_dev.count = 0
      ∧ (misc_read_pass s cur filp b).1.lis3_dev.misc_wait = s.lis3_dev.misc_wait.erase cur := by
  simp [misc_read_pass, atomic_xchg, set_current_state, misc_read_out, remove_wait_queue,
    h0, hnb, u32]

/-- A pass of the read loop that finds the counter at 0 on a blocking file with a signal
pending. -/
theorem misc_read_pass_empty_signal (s : System) (cur : Nat) (filp : file) (b : Bool)
    (h0 : s.lis3_dev.count = 0) (hbl : filp.f_flags &&& O_NONBLOCK = 0)
    (hsig : (s.tasks cur).sigpending = true) :
    (misc_read_pass s cur filp b).2 = ReadOutcome.ret (-ERESTARTSYS) none
      ∧ (misc_read_pass s cur filp b).1.lis3_dev.count = 0
      ∧ (misc_read_pass s cur filp b).1.lis3_dev.misc_wait = s.lis3_dev.misc_wait.erase cur := by
  simp [misc_read_pass, atomic_xchg, set_current_state, misc_read_out, remove_wait_queue,
    h0, hbl, hsig, u32]

/-- A pass of the read loop that finds the counter at 0 on a blocking file with no signal
pending: the task goes to sleep in `TASK_INTERRUPTIBLE` with its entry queued. -/
theorem misc_read_pass_empty_sleep (s : System) (cur : Nat) (filp : file) (b : Bool)
    (h0 : s.lis3_dev.count = 0) (hbl : filp.f_flags &&& O_NONBLOCK = 0)
    (hsig : (s.tasks cur).sigpending = false) :
    (misc_read_pass s cur filp b).2 = ReadOutcome.sleeping
      ∧ (misc_read_pass s cur filp b).1.lis3_dev.count = 0
      ∧ (misc_read_pass s cur filp b).1.lis3_dev.misc_wait = s.lis3_dev.misc_wait
      ∧ ((misc_read_pass s cur filp b).1.tasks cur).state = TaskState.TASK_INTERRUPTIBLE
      ∧ ((misc_read_pass s cur filp b).1.tasks cur).sigpending = false := by
  simp [misc_read_pass, atomic_xchg, set_current_state, h0, hbl, hsig, u32]

/-! ## C1: interrupts, then one read -/

/-- C1, as amended: from an attached state whose counter is 0, after `N` runs of
`lis302dl_interrupt` with `1 ≤ N < 2^32`, a call of `lis3lv02d_misc_read` with a
requested count of at least 1 and a writable user buffer returns 1 without sleeping,
has stored the byte `min N 255`, and leaves the counter at 0, the wait queue as it was
and the open bit set. -/
theorem misc_read_after_triggers (s : System) (cur : Nat) (filp : file) (N count : Nat)
    (hopen : s.lis3_dev.misc_opened = true) (h0 : s.lis3_dev.count = 0)
    (hN : 1 ≤ N) (hN32 : N < 4294967296) (hcount : 1 ≤ count) :
    (lis3lv02d_misc_read (triggers N s) cur filp true count).2
        = ReadOutcome.ret 1 (some (min N 255))
      ∧ (lis3lv02d_misc_read (triggers N s) cur filp true count).1.lis3_dev.count = 0
      ∧ (lis3lv02d_misc_read (triggers N s) cur filp true count).1.lis3_dev.misc_wait
          = s.lis3_dev.misc_wait
      ∧ (lis3lv02d_misc_read (triggers N s) cur filp true count).1.lis3_dev.misc_opened
          = true := by
  have hc : (add_wait_queue (triggers N s) cur).lis3_dev.count = N := by
    rw [add_wait_queue_count, triggers_count N s (by omega), h0]; omega
  have hne : (add_wait_queue (triggers N s) cur).lis3_dev.count ≠ 0 := by omega
  have hp := misc_read_pass_data (add_wait_queue (triggers N s) cur) cur filp hne
  have hmin : (if N < 255 then N % 256 else 255) = min N 255 := by
    rw [Nat.min_def]; split_ifs <;> omega
  rw [misc_read_enter _ _ _ _ _ hcount]
  refine ⟨?_, hp.2.1, ?_, ?_⟩
  · rw [hp.1, hc, hmin]
  · rw [hp.2.2.1, add_wait_queue_misc_wait, triggers_misc_wait]
    simp
  · rw [hp.2.2.2, add_wait_queue_misc_opened, triggers_misc_opened, hopen]

/-- Witness of C1: three interrupts, then a blocking read by task 1. -/
theorem misc_read_after_triggers_witness :
    (lis3lv02d_misc_read (triggers 3 attached0) 1 blocking_file true 1).2
        = ReadOutcome.ret 1 (some (min 3 255))
      ∧ (lis3lv02d_misc_read (triggers 3 attached0) 1 blocking_file true 1).1.lis3_dev.count = 0
      ∧ (lis3lv02d_misc_read (triggers 3 attached0) 1 blocking_file true 1).1.lis3_dev.misc_wait
          = attached0.lis3_dev.misc_wait
      ∧ (lis3lv02d_misc_read (triggers 3 attached0) 1 blocking_file true 1).1.lis3_dev.misc_opened
          = true :=
  misc_read_after_triggers attached0 1 blocking_file 3 1 (by decide) (by decide) (by decide)
    (by decide) (by decide)

/-- Counterexample to C1 as stated.  From the attached state `attached0`, whose counter
is 0: with `N = 0` a non-blocking read returns `-EAGAIN` and a blocking read sleeps,
neither returns success with the count `min 0 255`; with `N = 2^32` the counter has
wrapped to 0 and the read returns `-EAGAIN` instead of delivering 255; with `N = 3` and
a user buffer that cannot be written the read returns `-EFAULT`, no byte is delivered
and the counter is 0 all the same. -/
theorem misc_read_after_triggers_counterexample :
    attached0.lis3_dev.misc_opened = true ∧ attached0.lis3_dev.count = 0
      ∧ (lis3lv02d_misc_read (triggers 0 attached0) 1 nonblocking_file true 1).2
          = ReadOutcome.ret (-EAGAIN) none
      ∧ (lis3lv02d_misc_read (triggers 0 attached0) 1 nonblocking_file true 1).2
          ≠ ReadOutcome.ret 1 (some (min 0 255))
      ∧ (lis3lv02d_misc_read (triggers 0 attached0) 1 blocking_file true 1).2
          = ReadOutcome.sleeping
      ∧ (lis3lv02d_misc_read (triggers 4294967296 attached0) 1 nonblocking_file true 1).2
          = ReadOutcome.ret (-EAGAIN) none
      ∧ (lis3lv02d_misc_read (triggers 4294967296 attached0) 1 nonblocking_file true 1).2
          ≠ ReadOutcome.ret 1 (some (min 4294967296 255))
      ∧ (lis3lv02d_misc_read (triggers 3 attached0) 1 blocking_file false 1).2
          = ReadOutcome.ret (-EFAULT) none
      ∧ (lis3lv02d_misc_read (triggers 3 attached0) 1 blocking_file false 1).1.lis3_dev.count
          = 0 := by
  have hwrap : (triggers 4294967296 attached0).lis3_dev.count = 0 := by
    rw [triggers_count 4294967296 attached0 (by decide)]; decide
  have hread :
      (lis3lv02d_misc_read (triggers 4294967296 attached0) 1 nonblocking_file true 1).2
        = ReadOutcome.ret (-EAGAIN) none := by
    rw [misc_read_enter _ _ _ _ _ (by decide)]
    exact (misc_read_pass_empty_nonblocking _ 1 nonblocking_file true
      (by rw [add_wait_queue_count, hwrap]) (by decide)).1
  refine ⟨by decide, by decide, by decide, by decide, by decide, hread, ?_, by decide,
    by decide⟩
  rw [hread]
  decide

/-! ## C2: open while attached -/

/-- C2: in every state whose open bit is set, whatever the counter holds and whatever
`request_irq` would return, `lis3lv02d_misc_open` returns `-EBUSY` (already open) and
leaves the state as it was. -/
theorem misc_open_while_attached (s : System) (request_irq_ret : Int)
    (hopen : s.lis3_dev.misc_opened = true) :
    (lis3lv02d_misc_open s request_irq_ret).2 = -EBUSY
      ∧ (lis3lv02d_misc_open s request_irq_ret).1 = s := by
  simp [lis3lv02d_misc_open, hopen]

/-- Witness of C2: a second open after five interrupts. -/
theorem misc_open_while_attached_witness :
    (triggers 5 attached0).lis3_dev.misc_opened = true
      ∧ (triggers 5 attached0).lis3_dev.count = 5
      ∧ (lis3lv02d_misc_open (triggers 5 attached0) 0).2 = -EBUSY
      ∧ (lis3lv02d_misc_open (triggers 5 attached0) 0).1 = triggers 5 attached0 :=
  ⟨by decide, by decide, misc_open_while_attached (triggers 5 attached0) 0 (by decide)⟩

/-! ## C3: open after release -/

/-- C3, as amended: `lis3lv02d_misc_release` returns 0, and the open that follows it
succeeds exactly when `request_irq` returns 0; it then returns 0 with the open bit set,
the counter at 0 and the interrupt handler installed. -/
theorem misc_open_after_release (s : System) (filp : file) :
    (lis3lv02d_misc_release s filp).2 = 0
      ∧ (lis3lv02d_misc_open (lis3lv02d_misc_release s filp).1 0).2 = 0
      ∧ (lis3lv02d_misc_open (lis3lv02d_misc_release s filp).1 0).1.lis3_dev.misc_opened = true
      ∧ (lis3lv02d_misc_open (lis3lv02d_misc_release s filp).1 0).1.lis3_dev.count = 0
      ∧ (lis3lv02d_misc_open (lis3lv02d_misc_release s filp).1 0).1.irq_installed = true
      ∧ ∀ request_irq_ret : Int,
          ((lis3lv02d_misc_open (lis3lv02d_misc_release s filp).1 request_irq_ret).2 = 0
            ↔ request_irq_ret = 0) := by
  refine ⟨rfl, rfl, rfl, rfl, rfl, ?_⟩
  intro r
  by_cases hr : r = 0
  · subst hr; simp [lis3lv02d_misc_open, lis3lv02d_misc_release, set_misc_opened]
  · simp [lis3lv02d_misc_open, lis3lv02d_misc_release, set_misc_opened, hr, EBUSY]

/-- Counterexample to C3 as stated: after a successful open and a successful release,
an open for which `request_irq` fails with `-EBUSY` returns `-EBUSY`, not 0, and leaves
the open bit unset. -/
theorem misc_open_after_release_counterexample :
    (lis3lv02d_misc_open {} 0).2 = 0
      ∧ (lis3lv02d_misc_release attached0 blocking_file).2 = 0
      ∧ (lis3lv02d_misc_open (lis3lv02d_misc_release attached0 blocking_file).1 (-16)).2
          = -EBUSY
      ∧ (lis3lv02d_misc_open (lis3lv02d_misc_release attached0 blocking_file).1 (-16)).2 ≠ 0
      ∧ (lis3lv02d_misc_open
          (lis3lv02d_misc_release attached0 blocking_file).1 (-16)).1.lis3_dev.misc_opened
          = false := by
  decide

/-! ## C4: non-blocking read of an empty counter -/

/-- C4: with the counter at 0, a read on a file that has `O_NONBLOCK` set and a requested
count of at least 1 returns `-EAGAIN` without sleeping, stores no byte, and leaves the
counter at 0 and the wait queue as it was. -/
theorem misc_read_nonblocking_empty (s : System) (cur : Nat) (filp : file)
    (buf_writable : Bool) (count : Nat)
    (h0 : s.lis3_dev.count = 0) (hnb : filp.f_flags &&& O_NONBLOCK ≠ 0) (hcount : 1 ≤ count) :
    (lis3lv02d_misc_read s cur filp buf_writable count).2 = ReadOutcome.ret (-EAGAIN) none
      ∧ (lis3lv02d_misc_read s cur filp buf_writable count).1.lis3_dev.count
          = s.lis3_dev.count
      ∧ (lis3lv02d_misc_read s cur filp buf_writable count).1.lis3_dev.misc_wait
          = s.lis3_dev.misc_wait := by
  have hp := misc_read_pass_empty_nonblocking (add_wait_queue s cur) cur filp buf_writable
    (by rw [add_wait_queue_count, h0]) hnb
  rw [misc_read_enter _ _ _ _ _ hcount]
  refine ⟨hp.1, ?_, ?_⟩
  · rw [hp.2.1, h0]
  · rw [hp.2.2, add_wait_queue_misc_wait]
    simp

/-- Witness of C4: a non-blocking read right after the open. -/
theorem misc_read_nonblocking_empty_witness :
    (lis3lv02d_misc_read attached0 1 nonblocking_file true 1).2 = ReadOutcome.ret (-EAGAIN) none
      ∧ (lis3lv02d_misc_read attached0 1 nonblocking_file true 1).1.lis3_dev.count
          = attached0.lis3_dev.count
      ∧ (lis3lv02d_misc_read attached0 1 nonblocking_file true 1).1.lis3_dev.misc_wait
          = attached0.lis3_dev.misc_wait :=
  misc_read_nonblocking_empty attached0 1 nonblocking_file true 1 (by decide) (by decide)
    (by decide)

/-! ## C5: bus read failure in the decoders -/

/-- The one-byte decoder returns 0 whenever the bus read fails. -/
theorem read_8_of_failure (lis3 : lis3lv02d) (reg : Int) (h : (lis3.read reg).ret < 0) :
    lis3lv02d_read_8 lis3 reg = 0 := by
  simp [lis3lv02d_read_8, h]

/-- C5, the code at the failing input: on `failing_bus` both register reads fail, the
one-byte decoder returns 0, and the two-byte decoder `lis3lv02d_read_16` returns `0x1234`
composed of the bytes left in its two variables, not the sample 0. -/
theorem read_16_ignores_failure :
    (failing_bus.read (0x29 - 1)).ret < 0 ∧ (failing_bus.read 0x29).ret < 0
      ∧ lis3lv02d_read_8 failing_bus 0x29 = 0
      ∧ lis3lv02d_read_16 failing_bus 0x29 = 4660
      ∧ lis3lv02d_read_16 failing_bus 0x29 ≠ 0 := by
  decide

/-! ## C6: blocking read woken by one interrupt -/

theorem interrupt_tasks (s : System) (p : Nat) :
    (lis302dl_interrupt s).1.tasks p
      = if p ∈ s.lis3_dev.misc_wait then try_to_wake_up (s.tasks p) else s.tasks p := rfl

theorem signal_wake_up_count (s : System) (pid : Nat) :
    (signal_wake_up s pid).lis3_dev.count = s.lis3_dev.count := rfl

theorem signal_wake_up_misc_wait (s : System) (pid : Nat) :
    (signal_wake_up s pid).lis3_dev.misc_wait = s.lis3_dev.misc_wait := rfl

theorem signal_wake_up_sigpending (s : System) (pid : Nat) :
    ((signal_wake_up s pid).tasks pid).sigpending = true := by
  simp only [signal_wake_up, Function.update_same, try_to_wake_up]
  split_ifs <;> rfl

theorem signal_wake_up_state (s : System) (pid : Nat)
    (h : (s.tasks pid).state = TaskState.TASK_INTERRUPTIBLE) :
    ((signal_wake_up s pid).tasks pid).state = TaskState.TASK_RUNNING := by
  simp [signal_wake_up, try_to_wake_up, h]

/-- A read on a blocking file that finds the counter at 0 and no signal pending goes to
sleep with its entry at the head of the wait queue. -/
theorem misc_read_sleeps (s : System) (cur : Nat) (filp : file) (b : Bool) (count : Nat)
    (h0 : s.lis3_dev.count = 0) (hbl : filp.f_flags &&& O_NONBLOCK = 0) (hcount : 1 ≤ count)
    (hsig : (s.tasks cur).sigpending = false) :
    (lis3lv02d_misc_read s cur filp b count).2 = ReadOutcome.sleeping
      ∧ (lis3lv02d_misc_read s cur filp b count).1.lis3_dev.count = 0
      ∧ (lis3lv02d_misc_read s cur filp b count).1.lis3_dev.misc_wait
          = cur :: s.lis3_dev.misc_wait
      ∧ ((lis3lv02d_misc_read s cur filp b count).1.tasks cur).state
          = TaskState.TASK_INTERRUPTIBLE
      ∧ ((lis3lv02d_misc_read s cur filp b count).1.tasks cur).sigpending = false := by
  rw [misc_read_enter _ _ _ _ _ hcount]
  exact misc_read_pass_empty_sleep (add_wait_queue s cur) cur filp b
    (by rw [add_wait_queue_count, h0]) hbl (by rw [add_wait_queue_tasks, hsig])

/-- C6, as amended: a read on a file without `O_NONBLOCK`, with a requested count of at
least 1, a writable user buffer and no signal pending, started while the counter is 0,
goes to sleep with its wait entry queued and stays asleep as long as nothing wakes the
task; after exactly one run of `lis302dl_interrupt` the resumed read returns 1, has
stored the byte 1, the counter is 0 and the wait queue is what it was before the call,
so the entry of the reader is in it no more. -/
theorem misc_read_blocking_then_trigger (s : System) (cur : Nat) (filp : file) (count : Nat)
    (h0 : s.lis3_dev.count = 0) (hbl : filp.f_flags &&& O_NONBLOCK = 0) (hcount : 1 ≤ count)
    (hsig : (s.tasks cur).sigpending = false) :
    (lis3lv02d_misc_read s cur filp true count).2 = ReadOutcome.sleeping
      ∧ cur ∈ (lis3lv02d_misc_read s cur filp true count).1.lis3_dev.misc_wait
      ∧ (lis3lv02d_misc_read_resume
          (lis3lv02d_misc_read s cur filp true count).1 cur filp true).2 = ReadOutcome.sleeping
      ∧ (read_trigger_resume s cur filp true count).2 = ReadOutcome.ret 1 (some 1)
      ∧ (read_trigger_resume s cur filp true count).1.lis3_dev.count = 0
      ∧ (read_trigger_resume s cur filp true count).1.lis3_dev.misc_wait = s.lis3_dev.misc_wait
      ∧ (cur ∉ s.lis3_dev.misc_wait
          → cur ∉ (read_trigger_resume s cur filp true count).1.lis3_dev.misc_wait) := by
  obtain ⟨hout, hcnt, hq, hst, _⟩ := misc_read_sleeps s cur filp true count h0 hbl hcount hsig
  have hmem : cur ∈ (lis3lv02d_misc_read s cur filp true count).1.lis3_dev.misc_wait := by
    rw [hq]; exact List.mem_cons_self _ _
  have hrun : ((lis302dl_interrupt (lis3lv02d_misc_read s cur filp true count).1).1.tasks cur).state
      = TaskState.TASK_RUNNING := by
    rw [interrupt_tasks, if_pos hmem]
    simp [try_to_wake_up, hst]
  have hc1 : (lis302dl_interrupt (lis3lv02d_misc_read s cur filp true count).1).1.lis3_dev.count
      = 1 := by
    rw [interrupt_count, hcnt]
  have hp := misc_read_pass_data
    (lis302dl_interrupt (lis3lv02d_misc_read s cur filp true count).1).1 cur filp
    (by rw [hc1]; decide)
  have hres : read_trigger_resume s cur filp true count
      = misc_read_pass (lis302dl_interrupt (lis3lv02d_misc_read s cur filp true count).1).1
          cur filp true := by
    simp only [read_trigger_resume, lis3lv02d_misc_read_resume, hrun, if_true]
  have hqfinal : (read_trigger_resume s cur filp true count).1.lis3_dev.misc_wait
      = s.lis3_dev.misc_wait := by
    rw [hres, hp.2.2.1, interrupt_misc_wait, hq]
    simp
  refine ⟨hout, hmem, ?_, ?_, ?_, hqfinal, ?_⟩
  · simp [lis3lv02d_misc_read_resume, hst]
  · rw [hres, hp.1, hc1]
    rfl
  · rw [hres, hp.2.1]
  · intro hnot
    rw [hqfinal]
    exact hnot

/-- Witness of C6: task 1 reads the blocking file right after the open. -/
theorem misc_read_blocking_then_trigger_witness :
    (lis3lv02d_misc_read attached0 1 blocking_file true 1).2 = ReadOutcome.sleeping
      ∧ 1 ∈ (lis3lv02d_misc_read attached0 1 blocking_file true 1).1.lis3_dev.misc_wait
      ∧ (lis3lv02d_misc_read_resume
          (lis3lv02d_misc_read attached0 1 blocking_file true 1).1 1 blocking_file true).2
          = ReadOutcome.sleeping
      ∧ (read_trigger_resume attached0 1 blocking_file true 1).2 = ReadOutcome.ret 1 (some 1)
      ∧ (read_trigger_resume attached0 1 blocking_file true 1).1.lis3_dev.count = 0
      ∧ (read_trigger_resume attached0 1 blocking_file true 1).1.lis3_dev.misc_wait
          = attached0.lis3_dev.misc_wait
      ∧ (1 ∉ attached0.lis3_dev.misc_wait
          → 1 ∉ (read_trigger_resume attached0 1 blocking_file true 1).1.lis3_dev.misc_wait) :=
  misc_read_blocking_then_trigger attached0 1 blocking_file 1 (by decide) (by decide)
    (by decide) (by decide)

/-- Counterexample to C6 as stated: the same blocking read, woken by exactly one
interrupt, with a user buffer that `copy_to_user` cannot write: the call was asleep, and
once resumed it returns `-EFAULT` instead of success, delivers no byte, and the counter is
0 all the same. -/
theorem misc_read_blocking_then_trigger_counterexample :
    attached0.lis3_dev.count = 0
      ∧ blocking_file.f_flags &&& O_NONBLOCK = 0
      ∧ (attached0.tasks 1).sigpending = false
      ∧ (lis3lv02d_misc_read attached0 1 blocking_file false 1).2 = ReadOutcome.sleeping
      ∧ (read_trigger_resume attached0 1 blocking_file false 1).2
          = ReadOutcome.ret (-EFAULT) none
      ∧ (read_trigger_resume attached0 1 blocking_file false 1).2 ≠ ReadOutcome.ret 1 (some 1)
      ∧ (read_trigger_resume attached0 1 blocking_file false 1).1.lis3_dev.count = 0 := by
  decide

/-! ## C7: blocking read cancelled by a signal -/

/-- C7: a read on a file without `O_NONBLOCK`, with a requested count of at least 1,
that finds the counter at 0 and is cancelled by a signal before any interrupt returns
`-ERESTARTSYS`, stores no byte, leaves the counter at 0 and the wait queue as it was
before the call.  This holds when the signal is delivered before the call looks for it
(first three parts) and when it is delivered while the call sleeps (the rest). -/
theorem misc_read_blocking_signal (s : System) (cur : Nat) (filp : file)
    (buf_writable : Bool) (count : Nat)
    (h0 : s.lis3_dev.count = 0) (hbl : filp.f_flags &&& O_NONBLOCK = 0) (hcount : 1 ≤ count)
    (hsig : (s.tasks cur).sigpending = false) :
    (lis3lv02d_misc_read (signal_wake_up s cur) cur filp buf_writable count).2
        = ReadOutcome.ret (-ERESTARTSYS) none
      ∧ (lis3lv02d_misc_read (signal_wake_up s cur) cur filp buf_writable count).1.lis3_dev.count
          = 0
      ∧ (lis3lv02d_misc_read
          (signal_wake_up s cur) cur filp buf_writable count).1.lis3_dev.misc_wait
          = s.lis3_dev.misc_wait
      ∧ (lis3lv02d_misc_read s cur filp buf_writable count).2 = ReadOutcome.sleeping
      ∧ (read_signal_resume s cur filp buf_writable count).2
          = ReadOutcome.ret (-ERESTARTSYS) none
      ∧ (read_signal_resume s cur filp buf_writable count).1.lis3_dev.count = 0
      ∧ (read_signal_resume s cur filp buf_writable count).1.lis3_dev.misc_wait
          = s.lis3_dev.misc_wait
      ∧ (cur ∉ s.lis3_dev.misc_wait
          → cur ∉ (read_signal_resume s cur filp buf_writable count).1.lis3_dev.misc_wait) := by
  -- the signal is pending when the call starts
  have hpa := misc_read_pass_empty_signal (add_wait_queue (signal_wake_up s cur) cur) cur filp
    buf_writable (by rw [add_wait_queue_count, signal_wake_up_count, h0]) hbl
    (by rw [add_wait_queue_tasks, signal_wake_up_sigpending])
  -- the signal arrives while the call sleeps
  obtain ⟨hout, hcnt, hq, hst, _⟩ :=
    misc_read_sleeps s cur filp buf_writable count h0 hbl hcount hsig
  have hrun := signal_wake_up_state (lis3lv02d_misc_read s cur filp buf_writable count).1 cur hst
  have hpb := misc_read_pass_empty_signal
    (signal_wake_up (lis3lv02d_misc_read s cur filp buf_writable count).1 cur) cur filp
    buf_writable (by rw [signal_wake_up_count, hcnt]) hbl (signal_wake_up_sigpending _ _)
  have hres : read_signal_resume s cur filp buf_writable count
      = misc_read_pass
          (signal_wake_up (lis3lv02d_misc_read s cur filp buf_writable count).1 cur)
          cur filp buf_writable := by
    simp only [read_signal_resume, lis3lv02d_misc_read_resume, hrun, if_true]
  have hqfinal : (read_signal_resume s cur filp buf_writable count).1.lis3_dev.misc_wait
      = s.lis3_dev.misc_wait := by
    rw [hres, hpb.2.2, signal_wake_up_misc_wait, hq]
    simp
  refine ⟨?_, ?_, ?_, hout, ?_, ?_, hqfinal, ?_⟩
  · rw [misc_read_enter _ _ _ _ _ hcount]; exact hpa.1
  · rw [misc_read_enter _ _ _ _ _ hcount]; exact hpa.2.1
  · rw [misc_read_enter _ _ _ _ _ hcount, hpa.2.2, add_wait_queue_misc_wait,
      signal_wake_up_misc_wait]
    simp
  · rw [hres]; exact hpb.1
  · rw [hres]; exact hpb.2.1
  · intro hnot
    rw [hqfinal]
    exact hnot

/-- Witness of C7: task 1 reads the blocking file right after the open and gets a
signal. -/
theorem misc_read_blocking_signal_witness :
    (lis3lv02d_misc_read (signal_wake_up attached0 1) 1 blocking_file true 1).2
        = ReadOutcome.ret (-ERESTARTSYS) none
      ∧ (lis3lv02d_misc_read (signal_wake_up attached0 1) 1 blocking_file true 1).1.lis3_dev.count
          = 0
      ∧ (lis3lv02d_misc_read
          (signal_wake_up attached0 1) 1 blocking_file true 1).1.lis3_dev.misc_wait
          = attached0.lis3_dev.misc_wait
      ∧ (lis3lv02d_misc_read attached0 1 blocking_file true 1).2 = ReadOutcome.sleeping
      ∧ (read_signal_resume attached0 1 blocking_file true 1).2
          = ReadOutcome.ret (-ERESTARTSYS) none
      ∧ (read_signal_resume attached0 1 blocking_file true 1).1.lis3_dev.count = 0
      ∧ (read_signal_resume attached0 1 blocking_file true 1).1.lis3_dev.misc_wait
          = attached0.lis3_dev.misc_wait
      ∧ (1 ∉ attached0.lis3_dev.misc_wait
          → 1 ∉ (read_signal_resume attached0 1 blocking_file true 1).1.lis3_dev.misc_wait) :=
  misc_read_blocking_signal attached0 1 blocking_file true 1 (by decide) (by decide)
    (by decide) (by decide)

/-! ## C8: the two-byte decoder -/

/-- The composition `(hi << 8) | lo` of two bytes is `hi * 256 + lo`. -/
theorem shift_or_bytes (lo hi : Nat) (hlo : lo < 256) : (hi <<< 8) ||| lo = hi * 256 + lo := by
  have h := Nat.mul_add_lt_is_or (i := 8) (b := lo) (by simpa using hlo) hi
  rw [Nat.shiftLeft_eq]
  rw [Nat.mul_comm] at h
  exact h.symm

/-- C8: when the register `reg - 1` yields the byte `lo` and the register `reg`, the next
address, yields the byte `hi`, `lis3lv02d_read_16 lis3 reg` is the 16-bit little-endian
two's complement value of the pair, with no masking: `hi * 256 + lo` when `hi < 128` and
`hi * 256 + lo - 65536` otherwise. -/
theorem read_16_little_endian (lis3 : lis3lv02d) (reg : Int) (lo hi : Nat)
    (hlo : (lis3.read (reg - 1)).val = lo) (hhi : (lis3.read reg).val = hi)
    (hlo8 : lo < 256) (hhi8 : hi < 256) :
    lis3lv02d_read_16 lis3 reg
      = if hi < 128 then (hi : Int) * 256 + lo else (hi : Int) * 256 + lo - 65536 := by
  unfold lis3lv02d_read_16
  simp only [hlo, hhi, u8, Nat.mod_eq_of_lt hlo8, Nat.mod_eq_of_lt hhi8,
    shift_or_bytes lo hi hlo8, s16]
  push_cast
  split_ifs with h <;> omega

/-- Witness of C8: low byte `0x00` read at `0x28`, high byte `0x01` read at `0x29`, give
the sample 256. -/
theorem read_16_little_endian_witness :
    (double_byte_dev.read (0x29 - 1)).val = 0 ∧ (double_byte_dev.read 0x29).val = 1
      ∧ lis3lv02d_read_16 double_byte_dev 0x29 = 256 :=
  ⟨by decide, by decide,
    read_16_little_endian double_byte_dev 0x29 0 1 (by decide) (by decide) (by decide)
      (by decide)⟩

/-! ## C9: the axis mapper -/

/-- C9: on the three decoded samples `hw` (each an `s16` value) and an entry among
`±1`, `±2`, `±3`, `lis3lv02d_get_axis` reads inside the array and returns
`hw[|entry| - 1]`, negated exactly when the entry is negative.  In particular, on the
one-byte device whose registers hold `0xFB`, the sample `-5`, with the X entry `-1`,
`lis3lv02d_get_xyz` yields `+5` for X. -/
theorem get_axis_maps (entry : Int) (hw : List Int) (hlen : hw.length = 3)
    (hentry : valid_axis entry) (hrange : ∀ v ∈ hw, -32768 ≤ v ∧ v ≤ 32767) :
    (hw.get? (entry.natAbs - 1)).isSome = true
      ∧ lis3lv02d_get_axis entry hw
          = (hw.get? (entry.natAbs - 1)).map (fun v => if entry < 0 then -v else v)
      ∧ lis3lv02d_read_8 single_byte_dev 0x29 = -5
      ∧ lis3lv02d_get_xyz single_byte_dev 0x29 0x2B 0x2D = some (5, -5, -5) := by
  match hw, hlen with
  | [a, b, c], _ =>
    have ha := hrange a (by simp)
    have hb := hrange b (by simp)
    have hc := hrange c (by simp)
    have na : s32 (-a) = -a := by unfold s32; omega
    have nb : s32 (-b) = -b := by unfold s32; omega
    have nc : s32 (-c) = -c := by unfold s32; omega
    refine ⟨?_, ?_, by decide, by decide⟩
    · rcases hentry with h | h | h | h | h | h <;> subst h <;> rfl
    · rcases hentry with h | h | h | h | h | h <;> subst h <;>
        simp [lis3lv02d_get_axis, index, na, nb, nc]

/-- Witness of C9: the entry `-1` on the samples decoded from `single_byte_dev`. -/
theorem get_axis_maps_witness :
    ([lis3lv02d_read_8 single_byte_dev 0x29, 0, 0].get? ((-1 : Int).natAbs - 1)).isSome = true
      ∧ lis3lv02d_get_axis (-1) [lis3lv02d_read_8 single_byte_dev 0x29, 0, 0]
          = ([lis3lv02d_read_8 single_byte_dev 0x29, 0, 0].get? ((-1 : Int).natAbs - 1)).map
              (fun v => if (-1 : Int) < 0 then -v else v)
      ∧ lis3lv02d_read_8 single_byte_dev 0x29 = -5
      ∧ lis3lv02d_get_xyz single_byte_dev 0x29 0x2B 0x2D = some (5, -5, -5) :=
  get_axis_maps (-1) [lis3lv02d_read_8 single_byte_dev 0x29, 0, 0] (by decide) (by decide)
    (by decide)

/-! ## C10: calibration, then a poll -/

/-- The decoders do not look at the calibration offsets. -/
theorem call_calib (f : ReadFn) (lis3 : lis3lv02d) (a b c : Int) (reg : Int) :
    f.call { lis3 with xcalib := a, ycalib := b, zcalib := c } reg = f.call lis3 reg := by
  cases f <;> rfl

/-- Nor does `lis3lv02d_get_xyz`. -/
theorem get_xyz_calib (lis3 : lis3lv02d) (a b c : Int) (OUTX OUTY OUTZ : Int) :
    lis3lv02d_get_xyz { lis3 with xcalib := a, ycalib := b, zcalib := c } OUTX OUTY OUTZ
      = lis3lv02d_get_xyz lis3 OUTX OUTY OUTZ := by
  simp only [lis3lv02d_get_xyz, call_calib]

/-- On three samples a valid entry always selects one. -/
theorem get_axis_some (entry : Int) (a b c : Int) (hentry : valid_axis entry) :
    ∃ v, lis3lv02d_get_axis entry [a, b, c] = some v := by
  rcases hentry with h | h | h | h | h | h <;> subst h <;>
    simp [lis3lv02d_get_axis, index]

/-- With a decoder selected and valid entries `lis3lv02d_get_xyz` yields a triple. -/
theorem get_xyz_some (lis3 : lis3lv02d) (OUTX OUTY OUTZ : Int) (f : ReadFn)
    (hmode : lis3.read_data = some f)
    (hx : valid_axis lis3.ac.x) (hy : valid_axis lis3.ac.y) (hz : valid_axis lis3.ac.z) :
    ∃ x y z, lis3lv02d_get_xyz lis3 OUTX OUTY OUTZ = some (x, y, z) := by
  obtain ⟨x, hxv⟩ := get_axis_some lis3.ac.x (f.call lis3 OUTX) (f.call lis3 OUTY)
    (f.call lis3 OUTZ) hx
  obtain ⟨y, hyv⟩ := get_axis_some lis3.ac.y (f.call lis3 OUTX) (f.call lis3 OUTY)
    (f.call lis3 OUTZ) hy
  obtain ⟨z, hzv⟩ := get_axis_some lis3.ac.z (f.call lis3 OUTX) (f.call lis3 OUTY)
    (f.call lis3 OUTZ) hz
  exact ⟨x, y, z, by simp [lis3lv02d_get_xyz, hmode, hxv, hyv, hzv]⟩

/-- C10: in either resolution mode, for valid axis entries and any register contents,
`lis3lv02d_calibrate_joystick` stores the three mapped samples of `lis3lv02d_get_xyz` as
the offsets, whatever the offsets were before, and a `lis3lv02d_joystick_poll` right
after it over the same register contents reports 0 for `ABS_X`, `ABS_Y` and `ABS_Z`. -/
theorem calibrate_then_poll (lis3 : lis3lv02d) (OUTX OUTY OUTZ : Int) (f : ReadFn)
    (hmode : lis3.read_data = some f)
    (hx : valid_axis lis3.ac.x) (hy : valid_axis lis3.ac.y) (hz : valid_axis lis3.ac.z) :
    ∃ x y z, lis3lv02d_get_xyz lis3 OUTX OUTY OUTZ = some (x, y, z)
      ∧ lis3lv02d_calibrate_joystick lis3 OUTX OUTY OUTZ
          = some { lis3 with xcalib := x, ycalib := y, zcalib := z }
      ∧ (∀ a b c : Int,
          lis3lv02d_calibrate_joystick { lis3 with xcalib := a, ycalib := b, zcalib := c }
              OUTX OUTY OUTZ
            = some { lis3 with xcalib := x, ycalib := y, zcalib := z })
      ∧ (lis3lv02d_calibrate_joystick lis3 OUTX OUTY OUTZ).bind
            (fun d => lis3lv02d_joystick_poll d OUTX OUTY OUTZ)
          = some [(ABS_X, 0), (ABS_Y, 0), (ABS_Z, 0)] := by
  obtain ⟨x, y, z, hxyz⟩ := get_xyz_some lis3 OUTX OUTY OUTZ f hmode hx hy hz
  have hcal : lis3lv02d_calibrate_joystick lis3 OUTX OUTY OUTZ
      = some { lis3 with xcalib := x, ycalib := y, zcalib := z } := by
    simp [lis3lv02d_calibrate_joystick, hxyz]
  refine ⟨x, y, z, hxyz, hcal, ?_, ?_⟩
  · intro a b c
    simp [lis3lv02d_calibrate_joystick, get_xyz_calib, hxyz]
  · rw [hcal]
    simp [lis3lv02d_joystick_poll, get_xyz_calib, hxyz, s32]

/-- Witness of C10: the two-byte device `double_byte_dev`, whose offsets were 7, -9, 11. -/
theorem calibrate_then_poll_witness :
    ∃ x y z, lis3lv02d_get_xyz double_byte_dev 0x29 0x2B 0x2D = some (x, y, z)
      ∧ lis3lv02d_calibrate_joystick double_byte_dev 0x29 0x2B 0x2D
          = some { double_byte_dev with xcalib := x, ycalib := y, zcalib := z }
      ∧ (∀ a b c : Int,
          lis3lv02d_calibrate_joystick
              { double_byte_dev with xcalib := a, ycalib := b, zcalib := c } 0x29 0x2B 0x2D
            = some { double_byte_dev with xcalib := x, ycalib := y, zcalib := z })
      ∧ (lis3lv02d_calibrate_joystick double_byte_dev 0x29 0x2B 0x2D).bind
            (fun d => lis3lv02d_joystick_poll d 0x29 0x2B 0x2D)
          = some [(ABS_X, 0), (ABS_Y, 0), (ABS_Z, 0)] :=
  calibrate_then_poll double_byte_dev 0x29 0x2B 0x2D ReadFn.read_16 rfl (by decide)
    (by decide) (by decide)

/-! ## C11: an unrecognised identification value -/

/-- C12: in every state, blocking or not, writable buffer or not, a call of
`lis3lv02d_misc_read` with a requested count of 0 returns `-EINVAL`, stores no byte and
leaves the whole state, the counter and the wait queue included, as it was. -/
theorem misc_read_zero_count (s : System) (cur : Nat) (filp : file) (buf_writable : Bool) :
    (lis3lv02d_misc_read s cur filp buf_writable 0).2 = ReadOutcome.ret (-EINVAL) none
      ∧ (lis3lv02d_misc_read s cur filp buf_writable 0).1 = s
      ∧ (lis3lv02d_misc_read s cur filp buf_writable 0).1.lis3_dev.count = s.lis3_dev.count
      ∧ (lis3lv02d_misc_read s cur filp buf_writable 0).1.lis3_dev.misc_wait
          = s.lis3_dev.misc_wait := by
  have h : lis3lv02d_misc_read s cur filp buf_writable 0
      = (s, ReadOutcome.ret (-EINVAL) none) := by
    simp [lis3lv02d_misc_read]
  rw [h]
  exact ⟨rfl, rfl, rfl, rfl⟩

/-! ## C13: the readiness check -/

/-- The state after `lis3lv02d_misc_poll` is the one `poll_wait` leaves. -/
theorem misc_poll_state (s : System) (filp : file) (wait : Option Nat) :
    (lis3lv02d_misc_poll s filp wait).1 = poll_wait s filp wait := by
  simp only [lis3lv02d_misc_poll]
  split_ifs <;> rfl

theorem poll_wait_count (s : System) (filp : file) (wait : Option Nat) :
    (poll_wait s filp wait).lis3_dev.count = s.lis3_dev.count := by
  cases wait <;> rfl

theorem poll_wait_misc_opened (s : System) (filp : file) (wait : Option Nat) :
    (poll_wait s filp wait).lis3_dev.misc_opened = s.lis3_dev.misc_opened := by
  cases wait <;> rfl

theorem poll_wait_tasks (s : System) (filp : file) (wait : Option Nat) :
    (poll_wait s filp wait).tasks = s.tasks := by
  cases wait <;> rfl

/-- The outcome of a pass of the read loop and the counter it leaves depend on the
counter, the tasks and the arguments only. -/
theorem misc_read_pass_congr (s t : System) (cur : Nat) (filp : file) (b : Bool)
    (hc : s.lis3_dev.count = t.lis3_dev.count) (ht : s.tasks = t.tasks) :
    (misc_read_pass s cur filp b).2 = (misc_read_pass t cur filp b).2
      ∧ (misc_read_pass s cur filp b).1.lis3_dev.count
          = (misc_read_pass t cur filp b).1.lis3_dev.count := by
  simp only [misc_read_pass, atomic_xchg, set_current_state, misc_read_out, remove_wait_queue,
    hc, ht]
  split_ifs <;> exact ⟨rfl, rfl⟩

/-- C13: `lis3lv02d_misc_poll` returns `POLLIN | POLLRDNORM` exactly when the counter is
nonzero and 0 otherwise; it leaves the counter and the open bit as they were; any read
issued right after it has the outcome, and leaves the counter, it would have had without
the poll; and after a positive answer a read with a requested count of at least 1 and a
writable buffer returns 1 and stores the pending count, saturated at 255. -/
theorem misc_poll_readiness (s : System) (filp : file) (wait : Option Nat) :
    ((lis3lv02d_misc_poll s filp wait).2 = POLLIN ||| POLLRDNORM ↔ s.lis3_dev.count ≠ 0)
      ∧ ((lis3lv02d_misc_poll s filp wait).2 = 0 ↔ s.lis3_dev.count = 0)
      ∧ (lis3lv02d_misc_poll s filp wait).1.lis3_dev.count = s.lis3_dev.count
      ∧ (lis3lv02d_misc_poll s filp wait).1.lis3_dev.misc_opened = s.lis3_dev.misc_opened
      ∧ (∀ (cur : Nat) (rfilp : file) (buf_writable : Bool) (count : Nat),
          (lis3lv02d_misc_read (lis3lv02d_misc_poll s filp wait).1 cur rfilp buf_writable
              count).2
            = (lis3lv02d_misc_read s cur rfilp buf_writable count).2
          ∧ (lis3lv02d_misc_read (lis3lv02d_misc_poll s filp wait).1 cur rfilp buf_writable
              count).1.lis3_dev.count
            = (lis3lv02d_misc_read s cur rfilp buf_writable count).1.lis3_dev.count)
      ∧ (∀ (cur : Nat) (rfilp : file) (count : Nat),
          (lis3lv02d_misc_poll s filp wait).2 = POLLIN ||| POLLRDNORM → 1 ≤ count →
            (lis3lv02d_misc_read (lis3lv02d_misc_poll s filp wait).1 cur rfilp true count).2
                = ReadOutcome.ret 1 (some (min s.lis3_dev.count 255))
              ∧ (lis3lv02d_misc_read (lis3lv02d_misc_poll s filp wait).1 cur rfilp true
                  count).1.lis3_dev.count = 0) := by
  have hst := misc_poll_state s filp wait
  have hcnt := poll_wait_count s filp wait
  have hiff : (lis3lv02d_misc_poll s filp wait).2 = POLLIN ||| POLLRDNORM
      ↔ s.lis3_dev.count ≠ 0 := by
    simp only [lis3lv02d_misc_poll, hcnt]
    split_ifs with h
    · exact ⟨fun _ => h, fun _ => rfl⟩
    · exact ⟨fun hv => absurd (show (0 : Nat) = POLLIN ||| POLLRDNORM from hv) (by decide),
        fun hn => absurd hn h⟩
  refine ⟨hiff, ?_, ?_, ?_, ?_, ?_⟩
  · simp only [lis3lv02d_misc_poll, hcnt]
    split_ifs with h
    · exact ⟨fun hv => absurd (show POLLIN ||| POLLRDNORM = (0 : Nat) from hv) (by decide),
        fun hz => absurd hz h⟩
    · exact ⟨fun _ => not_not.mp h, fun _ => rfl⟩
  · rw [hst, hcnt]
  · rw [hst, poll_wait_misc_opened]
  · intro cur rfilp b count
    rw [hst]
    by_cases hlt : count < 1
    · simp [lis3lv02d_misc_read, hlt, hcnt]
    · have h1 : 1 ≤ count := by omega
      rw [misc_read_enter _ _ _ _ _ h1, misc_read_enter _ _ _ _ _ h1]
      exact misc_read_pass_congr _ _ cur rfilp b
        (by rw [add_wait_queue_count, add_wait_queue_count, hcnt])
        (by rw [add_wait_queue_tasks, add_wait_queue_tasks, poll_wait_tasks])
  · intro cur rfilp count hpos h1
    have hne : s.lis3_dev.count ≠ 0 := hiff.mp hpos
    have hc : (add_wait_queue (poll_wait s filp wait) cur).lis3_dev.count = s.lis3_dev.count := by
      rw [add_wait_queue_count, hcnt]
    have hp := misc_read_pass_data (add_wait_queue (poll_wait s filp wait) cur) cur rfilp
      (by rw [hc]; exact hne)
    have hmin : (if s.lis3_dev.count < 255 then s.lis3_dev.count % 256 else 255)
        = min s.lis3_dev.count 255 := by
      rw [Nat.min_def]; split_ifs <;> omega
    rw [hst, misc_read_enter _ _ _ _ _ h1]
    exact ⟨by rw [hp.1, hc, hmin], hp.2.1⟩

/-- Witness of C13: two interrupts after the open, a poll by task 1, then its read. -/
theorem misc_poll_readiness_witness :
    (lis3lv02d_misc_poll (triggers 2 attached0) blocking_file (some 1)).2
        = POLLIN ||| POLLRDNORM
      ∧ (lis3lv02d_misc_poll (triggers 2 attached0) blocking_file (some 1)).1.lis3_dev.count = 2
      ∧ (lis3lv02d_misc_read (lis3lv02d_misc_poll (triggers 2 attached0) blocking_file
            (some 1)).1 1 blocking_file true 1).2
          = ReadOutcome.ret 1 (some (min (triggers 2 attached0).lis3_dev.count 255))
      ∧ (lis3lv02d_misc_read (lis3lv02d_misc_poll (triggers 2 attached0) blocking_file
            (some 1)).1 1 blocking_file true 1).1.lis3_dev.count = 0 :=
  ⟨by decide, by decide,
    (misc_poll_readiness (triggers 2 attached0) blocking_file (some 1)).2.2.2.2.2
      1 blocking_file 1 (by decide) (by decide)⟩

/-! ## C14: open without an interrupt line -/

/-- C14: when the open bit is unset and `request_irq` fails, `lis3lv02d_misc_open`
returns `-EBUSY` and leaves the open bit unset and no handler installed; an open that
follows, for which `request_irq` returns 0, returns 0 and sets the open bit. -/
theorem misc_open_irq_unavailable (s : System) (request_irq_ret : Int)
    (hclosed : s.lis3_dev.misc_opened = false) (hirq : request_irq_ret ≠ 0) :
    (lis3lv02d_misc_open s request_irq_ret).2 = -EBUSY
      ∧ (lis3lv02d_misc_open s request_irq_ret).1.lis3_dev.misc_opened = false
      ∧ (lis3lv02d_misc_open s request_irq_ret).1.irq_installed = s.irq_installed
      ∧ (lis3lv02d_misc_open (lis3lv02d_misc_open s request_irq_ret).1 0).2 = 0
      ∧ (lis3lv02d_misc_open
          (lis3lv02d_misc_open s request_irq_ret).1 0).1.lis3_dev.misc_opened = true
      ∧ (lis3lv02d_misc_open (lis3lv02d_misc_open s request_irq_ret).1 0).1.irq_installed
          = true := by
  have h : lis3lv02d_misc_open s request_irq_ret
      = (set_misc_opened (atomic_set (set_misc_opened s true) 0) false, -EBUSY) := by
    simp [lis3lv02d_misc_open, hclosed, hirq]
  rw [h]
  exact ⟨rfl, rfl, rfl, rfl, rfl, rfl⟩

/-- Witness of C14: a first open for which `request_irq` returns `-16`, then one for
which it returns 0. -/
theorem misc_open_irq_unavailable_witness :
    (lis3lv02d_misc_open {} (-16)).2 = -EBUSY
      ∧ (lis3lv02d_misc_open {} (-16)).1.lis3_dev.misc_opened = false
      ∧ (lis3lv02d_misc_open {} (-16)).1.irq_installed = ({} : System).irq_installed
      ∧ (lis3lv02d_misc_open (lis3lv02d_misc_open {} (-16)).1 0).2 = 0
      ∧ (lis3lv02d_misc_open (lis3lv02d_misc_open {} (-16)).1 0).1.lis3_dev.misc_opened = true
      ∧ (lis3lv02d_misc_open (lis3lv02d_misc_open {} (-16)).1 0).1.irq_installed = true :=
  misc_open_irq_unavailable {} (-16) (by decide) (by decide)

/-! ## C15: the byte a successful read delivers -/

/-- A pass of the read loop that returns a non-negative value has stored a byte. -/
theorem misc_read_pass_success (s : System) (cur : Nat) (filp : file) (b : Bool)
    (retval : Int) (copied : Option Nat)
    (hret : (misc_read_pass s cur filp b).2 = ReadOutcome.ret retval copied)
    (hsucc : 0 ≤ retval) :
    retval = 1 ∧ s.lis3_dev.count ≠ 0
      ∧ copied = some (if s.lis3_dev.count < 255 then s.lis3_dev.count % 256 else 255) := by
  have contra : ∀ r : Int, r < 0 → ReadOutcome.ret r none = ReadOutcome.ret retval copied →
      False := by
    intro r hr heq
    injection heq with h1 _
    omega
  by_cases hdata : s.lis3_dev.count ≠ 0
  · cases b
    · rw [(misc_read_pass_fault s cur filp hdata).1] at hret
      exact (contra _ (by decide) hret).elim
    · rw [(misc_read_pass_data s cur filp hdata).1] at hret
      injection hret with h1 h2
      exact ⟨h1.symm, hdata, h2.symm⟩
  · have h0 : s.lis3_dev.count = 0 := not_not.mp hdata
    by_cases hnb : filp.f_flags &&& O_NONBLOCK ≠ 0
    · rw [(misc_read_pass_empty_nonblocking s cur filp b h0 hnb).1] at hret
      exact (contra _ (by decide) hret).elim
    · have hbl : filp.f_flags &&& O_NONBLOCK = 0 := not_not.mp hnb
      cases hsig : (s.tasks cur).sigpending
      · rw [(misc_read_pass_empty_sleep s cur filp b h0 hbl hsig).1] at hret
        exact ReadOutcome.noConfusion hret
      · rw [(misc_read_pass_empty_signal s cur filp b h0 hbl hsig).1] at hret
        exact (contra _ (by decide) hret).elim

/-- C15: whatever the counter holds (it is kept as the unsigned value of its 32 bits,
as the `u32 data` of the source reads it, so values of `2^31` and above are covered), a
call of `lis3lv02d_misc_read`, or a resumed one, that returns a non-negative value
returns 1 and has stored a byte between 1 and 255; the byte is the counter when the
counter is below 255 and is 255 whenever the counter is at least 255. -/
theorem misc_read_success_byte (s : System) (cur : Nat) (filp : file) (buf_writable : Bool)
    (count : Nat) (retval : Int) (copied : Option Nat)
    (hret : (lis3lv02d_misc_read s cur filp buf_writable count).2
          = ReadOutcome.ret retval copied
        ∨ (lis3lv02d_misc_read_resume s cur filp buf_writable).2
          = ReadOutcome.ret retval copied)
    (hsucc : 0 ≤ retval) :
    retval = 1
      ∧ ∃ byte, copied = some byte ∧ 1 ≤ byte ∧ byte ≤ 255
        ∧ (255 ≤ s.lis3_dev.count → byte = 255)
        ∧ (s.lis3_dev.count < 255 → byte = s.lis3_dev.count) := by
  have key : ∀ t : System, t.lis3_dev.count = s.lis3_dev.count →
      (misc_read_pass t cur filp buf_writable).2 = ReadOutcome.ret retval copied →
      retval = 1
        ∧ ∃ byte, copied = some byte ∧ 1 ≤ byte ∧ byte ≤ 255
          ∧ (255 ≤ s.lis3_dev.count → byte = 255)
          ∧ (s.lis3_dev.count < 255 → byte = s.lis3_dev.count) := by
    intro t ht hpass
    obtain ⟨hr, hne, hcop⟩ := misc_read_pass_success t cur filp buf_writable retval copied
      hpass hsucc
    rw [ht] at hne hcop
    refine ⟨hr, _, hcop, ?_, ?_, ?_, ?_⟩ <;> split_ifs <;> omega
  rcases hret with hret | hret
  · by_cases hlt : count < 1
    · simp only [lis3lv02d_misc_read, hlt, if_true] at hret
      injection hret with hr _
      have hneg : (-EINVAL : Int) < 0 := by decide
      omega
    · rw [misc_read_enter _ _ _ _ _ (by omega)] at hret
      exact key _ (add_wait_queue_count s cur) hret
  · by_cases hrun : (s.tasks cur).state = TaskState.TASK_RUNNING
    · simp only [lis3lv02d_misc_read_resume, hrun, if_true] at hret
      exact key s rfl hret
    · simp only [lis3lv02d_misc_read_resume, hrun, if_false] at hret
      exact ReadOutcome.noConfusion hret

/-- Witness of C15: the counter holds `2^31 + 5`; the read returns 1 and delivers 255. -/
theorem misc_read_success_byte_witness :
    (lis3lv02d_misc_read wrapped_counter 1 blocking_file true 1).2
        = ReadOutcome.ret 1 (some 255)
      ∧ 2147483648 ≤ wrapped_counter.lis3_dev.count
      ∧ ((1 : Int) = 1
        ∧ ∃ byte, some 255 = some byte ∧ 1 ≤ byte ∧ byte ≤ 255
          ∧ (255 ≤ wrapped_counter.lis3_dev.count → byte = 255)
          ∧ (wrapped_counter.lis3_dev.count < 255 → byte = wrapped_counter.lis3_dev.count)) :=
  ⟨by decide, by decide,
    misc_read_success_byte wrapped_counter 1 blocking_file true 1 1 (some 255)
      (Or.inl (by decide)) (by decide)⟩

end Lis3
